import Mathlib

/-!
Verification of the query-configuration model and rendering pipeline of the
sql-generator repository (src/sql_builder.py, src/app.py), as a shallow
embedding in Lean.

Python runtime conventions that the embedding makes explicit:
* dynamic values that flow through the builder are modelled by the closed
  universe `Value` (None, str, int, list) — the shapes the mutation
  operations and the UI produce;
* code that can raise (IndexError/TypeError on `value[0]`, joining a
  non-iterable) returns `Option`, `none` marking the raised exception;
* Python truthiness on the relevant types: `None`/`0` are falsy for the
  optional integers, a list is truthy iff non-empty, a string iff non-empty,
  and a dataclass instance is always truthy.
-/

namespace SqlGen

/-- The single-quote character, written via its code point 39. -/
def sq : String := String.singleton (Char.ofNat 39)

/-- Python values reachable in the builder: None, strings, ints, and
(possibly nested) lists. -/
inductive Value where
  | vNone : Value
  | vStr : String → Value
  | vInt : Int → Value
  | vList : List Value → Value

mutual

/-- Python `repr` on `Value` (string repr modelled as plain single-quoting;
no claim in this development depends on repr of strings containing quote or
escape characters). -/
def pyRepr : Value → String
  | .vNone => "None"
  | .vStr s => sq ++ s ++ sq
  | .vInt n => toString n
  | .vList vs => "[" ++ ", ".intercalate (pyReprList vs) ++ "]"

/-- `repr` mapped over a list of values. -/
def pyReprList : List Value → List String
  | [] => []
  | v :: vs => pyRepr v :: pyReprList vs

end

/-- Python `str` on `Value` (what an f-string interpolation produces). -/
def pyStr (v : Value) : String :=
  match v with
  | .vStr s => s
  | v => pyRepr v

/-- Python subscripting `v[i]` for the `Value` universe: defined for lists
(index in range) and strings (yielding a one-character string); `None` and
ints are not subscriptable (TypeError), an out-of-range index raises
IndexError — both modelled as `none`. -/
def pySubscript (v : Value) (i : Nat) : Option Value :=
  match v with
  | .vList vs => vs.get? i
  | .vStr s => (s.data.get? i).map (fun c => .vStr (String.singleton c))
  | _ => none

/-- The Python conditional expression used for value quoting throughout
sql_builder.py: a str value is wrapped in single quotes, any other value is
rendered with str(). -/
def quoteIfStr (v : Value) : String :=
  match v with
  | .vStr s => sq ++ s ++ sq
  | v => pyStr v

/-- `FilterOperator` enumeration (sql_builder.py lines 47-62). -/
inductive FilterOperator where
  | EQUALS | NOT_EQUALS | GREATER | LESS | GREATER_EQUAL | LESS_EQUAL
  | IN | NOT_IN | LIKE | NOT_LIKE | BETWEEN | IS_NULL | IS_NOT_NULL | REGEXP
  deriving DecidableEq

/-- The `.value` string of each `FilterOperator` member. -/
def FilterOperator.value : FilterOperator → String
  | .EQUALS => "="
  | .NOT_EQUALS => "!="
  | .GREATER => ">"
  | .LESS => "<"
  | .GREATER_EQUAL => ">="
  | .LESS_EQUAL => "<="
  | .IN => "IN"
  | .NOT_IN => "NOT IN"
  | .LIKE => "LIKE"
  | .NOT_LIKE => "NOT LIKE"
  | .BETWEEN => "BETWEEN"
  | .IS_NULL => "IS NULL"
  | .IS_NOT_NULL => "IS NOT NULL"
  | .REGEXP => "REGEXP"

/-- `TableConfig` (sql_builder.py lines 17-31). -/
structure TableConfig where
  table_name : String
  alias_ : String
  selected_fields : List String
  deriving DecidableEq

/-- `TableConfig.add_field`: append the field name unless already present. -/
def TableConfig.add_field (t : TableConfig) (field_name : String) : TableConfig :=
  if field_name ∈ t.selected_fields then t
  else { t with selected_fields := t.selected_fields ++ [field_name] }

/-- `TableConfig.get_qualified_fields`: alias-qualified field list. -/
def TableConfig.get_qualified_fields (t : TableConfig) : List String :=
  t.selected_fields.map (fun f => t.alias_ ++ "." ++ f)

/-- `JoinConfig` (sql_builder.py lines 33-45). -/
structure JoinConfig where
  left_table_alias : String
  right_table : TableConfig
  join_type : String
  on_left_field : String
  on_right_field : String
  deriving DecidableEq

/-- `JoinConfig.to_sql`. -/
def JoinConfig.to_sql (j : JoinConfig) : String :=
  j.join_type ++ " " ++ j.right_table.table_name ++ " AS " ++ j.right_table.alias_ ++
    " ON " ++ j.left_table_alias ++ "." ++ j.on_left_field ++ " = " ++
    j.right_table.alias_ ++ "." ++ j.on_right_field

/-- `FilterCondition` (sql_builder.py lines 64-94). -/
structure FilterCondition where
  table_alias : String
  field : String
  operator : FilterOperator
  value : Value
  logic_operator : String

/-- `FilterCondition.to_sql` (sql_builder.py lines 73-94). The BETWEEN
branch subscripts `value[0]` and `value[1]`, which raises when the value is
not a sequence of at least two elements — modelled by `none`. -/
def FilterCondition.to_sql (f : FilterCondition) : Option String :=
  let full_field := f.table_alias ++ "." ++ f.field
  if f.operator = .IS_NULL ∨ f.operator = .IS_NOT_NULL then
    some (full_field ++ " " ++ f.operator.value)
  else if f.operator = .IN ∨ f.operator = .NOT_IN then
    let values :=
      match f.value with
      | .vList vs => ", ".intercalate (vs.map quoteIfStr)
      | v => pyStr v
    some (full_field ++ " " ++ f.operator.value ++ " (" ++ values ++ ")")
  else if f.operator = .BETWEEN then
    match pySubscript f.value 0, pySubscript f.value 1 with
    | some v0, some v1 =>
        some (full_field ++ " BETWEEN " ++ pyStr v0 ++ " AND " ++ pyStr v1)
    | _, _ => none
  else if f.operator = .REGEXP then
    some (full_field ++ " REGEXP " ++ sq ++ pyStr f.value ++ sq)
  else
    some (full_field ++ " " ++ f.operator.value ++ " " ++ quoteIfStr f.value)

/-- `SortConfig` (sql_builder.py lines 96-104). -/
structure SortConfig where
  table_alias : String
  field : String
  direction : String
  deriving DecidableEq

/-- `SortConfig.to_sql`. -/
def SortConfig.to_sql (s : SortConfig) : String :=
  s.table_alias ++ "." ++ s.field ++ " " ++ s.direction

/-- `WindowFunctionConfig` (sql_builder.py lines 106-141). -/
structure WindowFunctionConfig where
  function_name : String
  table_alias : String
  field : String
  partition_by : List String
  order_by : List SortConfig
  alias_ : String
  deriving DecidableEq

/-- `WindowFunctionConfig.to_sql`; Python truthiness of `field`, `alias`
(non-empty string) and of the two sequences (non-empty list). -/
def WindowFunctionConfig.to_sql (w : WindowFunctionConfig) : String :=
  let func_expr :=
    w.function_name ++ "(" ++
      (if w.field = "" then "" else w.table_alias ++ "." ++ w.field) ++ ")"
  let window_clause :=
    " OVER (" ++
      (if w.partition_by.isEmpty then ""
       else "PARTITION BY " ++ ", ".intercalate w.partition_by ++ " ") ++
      (if w.order_by.isEmpty then ""
       else "ORDER BY " ++ ", ".intercalate (w.order_by.map SortConfig.to_sql)) ++
      ")"
  let result := func_expr ++ window_clause
  if w.alias_ = "" then result else result ++ " AS " ++ w.alias_

/-- `CaseWhenConfig` (sql_builder.py lines 143-163); `else_value = vNone`
models Python `else_value is None`. -/
structure CaseWhenConfig where
  alias_ : String
  conditions : List (FilterCondition × Value)
  else_value : Value

/-- Fail-fast map: the Option-valued image of a Python list comprehension /
loop whose body may raise. -/
def tryMap (f : α → Option β) : List α → Option (List β)
  | [] => some []
  | a :: l =>
    match f a, tryMap f l with
    | some b, some bs => some (b :: bs)
    | _, _ => none

/-- `CaseWhenConfig.to_sql` (default indent 2 supplied by callers). -/
def CaseWhenConfig.to_sql (c : CaseWhenConfig) (indent : Nat) : Option String :=
  let spaces := String.mk (List.replicate indent (Char.ofNat 32))
  (tryMap (fun p => (FilterCondition.to_sql p.1).map
      (fun cs => spaces ++ "  WHEN " ++ cs ++ " THEN " ++ quoteIfStr p.2)) c.conditions).map
    (fun when_lines =>
      "\n".intercalate ([spaces ++ "CASE"] ++ when_lines ++
        (match c.else_value with
         | .vNone => []
         | ev => [spaces ++ "  ELSE " ++ quoteIfStr ev]) ++
        [spaces ++ "END AS " ++ c.alias_]))

/-- `GroupByConfig` (sql_builder.py lines 165-169). -/
structure GroupByConfig where
  fields : List String
  having_conditions : List FilterCondition

/-- `UniversalQueryBuilder` state (sql_builder.py lines 176-186). -/
structure UniversalQueryBuilder where
  tables : List TableConfig
  joins : List JoinConfig
  filters : List FilterCondition
  case_when : List CaseWhenConfig
  window_functions : List WindowFunctionConfig
  group_by : Option GroupByConfig
  order_by : List SortConfig
  limit : Option Int
  offset : Option Int
  distinct : Bool

/-- The freshly-constructed builder (`__init__`). -/
def UniversalQueryBuilder.empty : UniversalQueryBuilder :=
  ⟨[], [], [], [], [], none, [], none, none, false⟩

/-- `add_table` (a `None` fields argument becomes `[]` via `fields or []`). -/
def UniversalQueryBuilder.add_table (b : UniversalQueryBuilder)
    (table_name alias_ : String) (fields : List String) : UniversalQueryBuilder :=
  { b with tables := b.tables ++ [⟨table_name, alias_, fields⟩] }

/-- `add_join`: builds the right-hand `TableConfig`, appends it to the table
list, and appends the join. -/
def UniversalQueryBuilder.add_join (b : UniversalQueryBuilder)
    (left_alias right_table right_alias on_left on_right join_type : String)
    (right_fields : List String) : UniversalQueryBuilder :=
  let right_table_config : TableConfig := ⟨right_table, right_alias, right_fields⟩
  { b with
    tables := b.tables ++ [right_table_config],
    joins := b.joins ++ [⟨left_alias, right_table_config, join_type, on_left, on_right⟩] }

/-- `add_filter`. -/
def UniversalQueryBuilder.add_filter (b : UniversalQueryBuilder)
    (table_alias field : String) (operator : FilterOperator) (value : Value)
    (logic : String) : UniversalQueryBuilder :=
  { b with filters := b.filters ++ [⟨table_alias, field, operator, value, logic⟩] }

/-- `add_case_when`. -/
def UniversalQueryBuilder.add_case_when (b : UniversalQueryBuilder)
    (alias_ : String) (conditions : List (FilterCondition × Value))
    (else_value : Value) : UniversalQueryBuilder :=
  { b with case_when := b.case_when ++ [⟨alias_, conditions, else_value⟩] }

/-- `add_window_function`. -/
def UniversalQueryBuilder.add_window_function (b : UniversalQueryBuilder)
    (function table_alias field : String) (partition_by : List String)
    (order_by : List SortConfig) (alias_ : String) : UniversalQueryBuilder :=
  { b with window_functions :=
      b.window_functions ++ [⟨function, table_alias, field, partition_by, order_by, alias_⟩] }

/-- `set_group_by` (replaces any previous GROUP BY). -/
def UniversalQueryBuilder.set_group_by (b : UniversalQueryBuilder)
    (fields : List String) (having : List FilterCondition) : UniversalQueryBuilder :=
  { b with group_by := some ⟨fields, having⟩ }

/-- `add_order_by`. -/
def UniversalQueryBuilder.add_order_by (b : UniversalQueryBuilder)
    (table_alias field direction : String) : UniversalQueryBuilder :=
  { b with order_by := b.order_by ++ [⟨table_alias, field, direction⟩] }

/-- `set_limit`. -/
def UniversalQueryBuilder.set_limit (b : UniversalQueryBuilder)
    (limit : Int) (offset : Option Int) : UniversalQueryBuilder :=
  { b with limit := some limit, offset := offset }

/-- The WHERE block of `to_sql` (sql_builder.py lines 278-287): nothing for
an empty filter list; otherwise a `WHERE` line followed by one line per
filter, the first bare, each subsequent one prefixed by its own
`logic_operator`. -/
def whereBlock : List FilterCondition → Option (List String)
  | [] => some []
  | f :: rest =>
    match FilterCondition.to_sql f,
        tryMap (fun g => (FilterCondition.to_sql g).map
          (fun s => "  " ++ g.logic_operator ++ " " ++ s)) rest with
    | some s0, some restLines =>
        some ["WHERE", "\n".intercalate (("  " ++ s0) :: restLines)]
    | _, _ => none

/-- The GROUP BY / HAVING block of `to_sql` (sql_builder.py lines 290-295):
having conditions are joined with the literal `" AND "`. -/
def groupBlock : Option GroupByConfig → Option (List String)
  | none => some []
  | some g =>
    let head := "GROUP BY " ++ ", ".intercalate g.fields
    if g.having_conditions.isEmpty then some [head]
    else
      match tryMap FilterCondition.to_sql g.having_conditions with
      | none => none
      | some hs => some [head, "HAVING " ++ " AND ".intercalate hs]

/-- The LIMIT clause of `to_sql` (sql_builder.py lines 302-307): Python
truthiness (`if self.limit:` / `if self.offset:`) makes `None` and `0`
both behave as absent, while any nonzero integer — negative included — is
emitted. -/
def limitBlock (limit offset : Option Int) : List String :=
  match limit with
  | none => []
  | some n =>
    if n = 0 then []
    else
      [("LIMIT " ++ toString n ++
        (match offset with
         | none => ""
         | some m => if m = 0 then "" else " OFFSET " ++ toString m))]

/-- The FROM clause of `to_sql` (sql_builder.py lines 270-272): emitted
from the first table of the table list, silently absent when there is
none. -/
def fromBlock : List TableConfig → List String
  | [] => []
  | t :: _ => ["FROM " ++ t.table_name ++ " AS " ++ t.alias_]

/-- `UniversalQueryBuilder.to_sql` (sql_builder.py lines 244-309); `none`
models an exception escaping from a nested `FilterCondition.to_sql`. -/
def UniversalQueryBuilder.to_sql (b : UniversalQueryBuilder) : Option String :=
  match tryMap (fun c => CaseWhenConfig.to_sql c 2) b.case_when,
      whereBlock b.filters, groupBlock b.group_by with
  | some caseItems, some whereLines, some groupLines =>
    let select_keyword := if b.distinct then "SELECT DISTINCT" else "SELECT"
    let select_items :=
      (b.tables.map TableConfig.get_qualified_fields).flatten ++
      caseItems ++
      b.window_functions.map (fun w => "  " ++ WindowFunctionConfig.to_sql w)
    let lines :=
      [select_keyword, "  " ++ ",\n  ".intercalate select_items] ++
      fromBlock b.tables ++
      b.joins.map JoinConfig.to_sql ++
      whereLines ++
      groupLines ++
      (if b.order_by.isEmpty then []
       else ["ORDER BY " ++ ", ".intercalate (b.order_by.map SortConfig.to_sql)]) ++
      limitBlock b.limit b.offset
    some ("\n".intercalate lines ++ ";")
  | _, _, _ => none

/-- A flattened token of the external tokenizer (sqlparse), exposing only
the punctuation test `token.match(tokens.Punctuation, c)` that
`validate_sql` uses. -/
inductive SqlToken where
  | punct : String → SqlToken
  | other : SqlToken
  deriving DecidableEq

/-- A parsed statement of the external tokenizer: its coarse statement kind
(`get_type()`) and its flattened token stream (`flatten()`). -/
structure SqlStatement where
  stmt_type : String
  tokens : List SqlToken
  deriving DecidableEq

/-- The result dict of `validate_sql`. -/
structure ValidationResult where
  valid : Bool
  formatted : String
  errors : List String
  warnings : List String
  deriving DecidableEq

/-- Contribution of one token to the parenthesis count: `+1` for a `(`
punctuation token, `-1` for `)`, `0` otherwise. -/
def parenDelta (t : SqlToken) : Int :=
  if t = .punct "(" then 1 else if t = .punct ")" then -1 else 0

/-- The parenthesis scan of `validate_sql` (sql_builder.py lines 356-366):
running count over the token stream, breaking out (second component `true`)
as soon as the count goes negative. -/
def parenScan : List SqlToken → Int → Int × Bool
  | [], c => (c, false)
  | t :: ts, c =>
    let c' := c + parenDelta t
    if c' < 0 then (c', true) else parenScan ts c'

/-- Substring test used for the `select *` style check (`in` on str). -/
def containsSub (s pat : String) : Bool :=
  decide (pat.data <:+: s.data)

/-- `UniversalQueryBuilder.validate_sql` (sql_builder.py lines 311-388),
with the external tokenizer abstracted per the collaborator contract of
the spec: `parsed` is the statement list `sqlparse.parse(sql_text)` returns
and `fmt` the reformatter `sqlparse.format(..., reindent, keyword_case,
indent_width)`. The unparsable case returns before any formatting, so its
`formatted` field is the initial empty string. -/
def validate_sql (sql_text : String) (parsed : List SqlStatement)
    (fmt : String → String) : ValidationResult :=
  match parsed with
  | [] => ⟨false, "", ["无法解析SQL语句"], []⟩
  | statement :: _ =>
    let formatted := fmt sql_text
    let warnings0 :=
      if statement.stmt_type = "SELECT" then []
      else ["检测到非SELECT语句: " ++ statement.stmt_type]
    let scan := parenScan statement.tokens 0
    let errors1 := if scan.2 then ["括号不匹配"] else []
    let errors2 := if scan.1 ≠ 0 then errors1 ++ ["括号不匹配"] else errors1
    let valid := !(scan.2 || scan.1 ≠ 0)
    let sql_lower := sql_text.toLower
    let warnings1 := warnings0 ++
      (if sql_text.data.count (Char.ofNat 39) % 2 ≠ 0
       then ["可能存在未闭合的单引号"] else [])
    let warnings2 := warnings1 ++
      (if containsSub sql_lower "select *" || containsSub sql_lower "select  *"
       then ["使用了SELECT *，建议明确指定字段"] else [])
    ⟨valid, formatted, errors2, warnings2⟩

/-- Python `str.endswith`, as a suffix test on the character list. -/
def pyEndsWith (s suffix : String) : Bool :=
  decide (suffix.data <:+ s.data)

/-- Chinese label of a join type (to_natural_language, lines 411-416). -/
def joinTypeCn (jt : String) : String :=
  if jt = "LEFT JOIN" then "左连接"
  else if jt = "INNER JOIN" then "内连接"
  else if jt = "RIGHT JOIN" then "右连接"
  else if jt = "FULL OUTER JOIN" then "全外连接"
  else jt

/-- Chinese label of an operator symbol (to_natural_language, lines
429-444). -/
def opCn (opv : String) : String :=
  if opv = "=" then "等于"
  else if opv = "!=" then "不等于"
  else if opv = ">" then "大于"
  else if opv = "<" then "小于"
  else if opv = ">=" then "大于等于"
  else if opv = "<=" then "小于等于"
  else if opv = "IN" then "在...之中"
  else if opv = "NOT IN" then "不在...之中"
  else if opv = "LIKE" then "包含"
  else if opv = "NOT LIKE" then "不包含"
  else if opv = "IS NULL" then "为空"
  else if opv = "IS NOT NULL" then "不为空"
  else if opv = "BETWEEN" then "在...之间"
  else if opv = "REGEXP" then "匹配正则"
  else opv

/-- Value formatting of the filter section of `to_natural_language`
(lines 448-454). -/
def nlValueStr (v : Value) : String :=
  match v with
  | .vList vs => "[" ++ ", ".intercalate (vs.map pyStr) ++ "]"
  | .vNone => ""
  | v => " " ++ pyStr v

/-- One rendered filter entry of the summarizer (line 456). -/
def nlFilterEntry (logic : String) (f : FilterCondition) : String :=
  logic ++ f.table_alias ++ "." ++ f.field ++ " " ++ opCn f.operator.value ++
    nlValueStr f.value

/-- `UniversalQueryBuilder.to_natural_language` (sql_builder.py lines
389-499). The GROUP BY section calls the comma join directly on the
`GroupByConfig` dataclass value itself (not on its `.fields` list); a
dataclass is not iterable, so Python raises TypeError whenever `group_by`
is set — modelled by `none`. The subsequent hasattr test for a
having_conditions attribute on the builder is always false, so the HAVING
note is never emitted. -/
def UniversalQueryBuilder.to_natural_language
    (b : UniversalQueryBuilder) : Option String :=
  let parts1 :=
    [if b.distinct then "查询去重后的数据" else "查询数据"] ++
    (match b.tables with
     | [] => []
     | mt :: _ =>
       ["，从 **" ++ mt.table_name ++ "** 表"] ++
       (if mt.selected_fields.isEmpty then []
        else ["（字段：" ++ "、".intercalate mt.selected_fields ++ "）"])) ++
    (if b.joins.isEmpty then []
     else ["，" ++ "，".intercalate (b.joins.map (fun j =>
       joinTypeCn j.join_type ++ " **" ++ j.right_table.table_name ++
         "** 表（ON " ++ j.left_table_alias ++ "." ++ j.on_left_field ++
         " = " ++ j.right_table.alias_ ++ "." ++ j.on_right_field ++ "）"))]) ++
    (match b.filters with
     | [] => []
     | f0 :: rest =>
       ["。\n\n**筛选条件**：",
        "\n- " ++ "\n- ".intercalate (nlFilterEntry "" f0 ::
          rest.map (fun f => nlFilterEntry (" **" ++ f.logic_operator ++ "** ") f))])
  match b.group_by with
  | some _ => none
  | none =>
    let parts2 := parts1 ++
      (if b.case_when.isEmpty then []
       else ["\n\n**条件字段**："] ++ b.case_when.map (fun c =>
         "\n- " ++ c.alias_ ++ "（" ++ toString c.conditions.length ++ "个条件分支）")) ++
      (if b.window_functions.isEmpty then []
       else ["\n\n**窗口函数**："] ++ (b.window_functions.map (fun wf =>
         ["\n- " ++ wf.alias_ ++ "：" ++ wf.function_name] ++
         (if wf.partition_by.isEmpty then []
          else [" PARTITION BY " ++ ", ".intercalate wf.partition_by]))).flatten) ++
      (if b.order_by.isEmpty then []
       else ["\n\n**排序**：按 " ++ ", ".intercalate (b.order_by.map (fun s =>
         s.table_alias ++ "." ++ s.field ++ " " ++
           (if s.direction = "ASC" then "升序" else "降序")))]) ++
      (match b.limit with
       | none => []
       | some n =>
         if n = 0 then []
         else ["\n\n**限制**：返回 " ++ toString n ++ " 条记录" ++
               (match b.offset with
                | none => ""
                | some m =>
                  if m = 0 then "" else "（跳过前 " ++ toString m ++ " 条）")])
    let result := String.join parts2
    some (if pyEndsWith result "。" then result else result ++ "。")

/-- A table record of the serialized configuration document. -/
structure TableDoc where
  name : String
  alias_ : String
  fields : List String
  deriving DecidableEq

/-- A join record of the serialized configuration document
(`save_query_config` writes no `right_fields` key). -/
structure JoinDoc where
  left_alias : String
  right_table : String
  right_alias : String
  join_type : String
  on_left : String
  on_right : String
  deriving DecidableEq

/-- The serialized configuration document: `save_query_config`
(sql_builder.py lines 502-524) writes exactly two keys, `tables` and
`joins` (the trailing comment leaves the rest unwritten). -/
structure QueryConfigDoc where
  tables : List TableDoc
  joins : List JoinDoc
  deriving DecidableEq

/-- `save_query_config`, minus the file I/O: the document it serializes. -/
def save_query_config (b : UniversalQueryBuilder) : QueryConfigDoc :=
  ⟨b.tables.map (fun t => ⟨t.table_name, t.alias_, t.selected_fields⟩),
   b.joins.map (fun j =>
     ⟨j.left_table_alias, j.right_table.table_name, j.right_table.alias_,
      j.join_type, j.on_left_field, j.on_right_field⟩)⟩

/-- Reconstruction of a fresh QueryAssembly from a serialized configuration
document by replaying its keys in document order through the mutation
operations (app.py `rebuild_query`, restricted to the keys
`save_query_config` actually writes: a key absent from the document
replays nothing, and the join records of the document carry no
`right_fields`, so the empty list is passed). -/
def rebuild_from_config (doc : QueryConfigDoc) : UniversalQueryBuilder :=
  let b1 := doc.tables.foldl
    (fun b t => b.add_table t.name t.alias_ t.fields) UniversalQueryBuilder.empty
  doc.joins.foldl
    (fun b j => b.add_join j.left_alias j.right_table j.right_alias
      j.on_left j.on_right j.join_type []) b1

/-! ### Helper lemmas -/

/-- `tryMap` succeeds when the function succeeds on every element. -/
lemma tryMap_isSome {α β : Type} (f : α → Option β) :
    ∀ l : List α, (∀ a ∈ l, (f a).isSome = true) → (tryMap f l).isSome = true := by
  intro l
  induction l with
  | nil => intro _; rfl
  | cons a l ih =>
    intro h
    have ha := h a (by simp)
    have hl := ih (fun x hx => h x (by simp [hx]))
    obtain ⟨b, hb⟩ := Option.isSome_iff_exists.1 ha
    obtain ⟨bs, hbs⟩ := Option.isSome_iff_exists.1 hl
    simp [tryMap, hb, hbs]

/-- Splitting a `tryMap` whose body post-processes with `Option.map`. -/
lemma tryMap_map_split {α β γ : Type} (f : α → Option β) (h : α → β → γ) :
    ∀ (l : List α) (L : List γ),
      tryMap (fun a => (f a).map (h a)) l = some L →
      ∃ bs, tryMap f l = some bs ∧ L = List.zipWith h l bs := by
  intro l
  induction l with
  | nil =>
    intro L hL
    simp [tryMap] at hL
    exact ⟨[], rfl, by simp [hL.symm]⟩
  | cons a l ih =>
    intro L hL
    unfold tryMap at hL
    cases hfa : f a with
    | none => rw [hfa] at hL; simp at hL
    | some b =>
      rw [hfa] at hL
      cases hrec : tryMap (fun a => (f a).map (h a)) l with
      | none => rw [hrec] at hL; simp at hL
      | some L' =>
        rw [hrec] at hL
        simp at hL
        obtain ⟨bs, hbs, hzip⟩ := ih L' hrec
        exact ⟨b :: bs, by simp [tryMap, hfa, hbs], by simp [← hL, hzip]⟩

/-- `tryMap` over a mapped list. -/
lemma tryMap_map_comp {α β γ : Type} (f : β → Option γ) (g : α → β) :
    ∀ l : List α, tryMap f (l.map g) = tryMap (fun a => f (g a)) l := by
  intro l
  induction l with
  | nil => rfl
  | cons a l ih => simp [tryMap, ih]

/-- Changing only `logic_operator` does not change a condition's rendered
predicate (`FilterCondition.to_sql` never reads it). -/
lemma to_sql_logic_irrel (c : FilterCondition) (op : String) :
    FilterCondition.to_sql { c with logic_operator := op } =
      FilterCondition.to_sql c := rfl

/-! ### C10 — TableConfig.add_field -/

/-- C10: `TableConfig.add_field` is idempotent and duplicate-free: adding a
field already present leaves `selected_fields` unchanged, `add_field f`
twice equals `add_field f` once, and any `selected_fields` sequence built
only through `add_field` (from a duplicate-free start, in particular the
empty list) has no duplicates. -/
theorem add_field_idempotent_nodup :
    (∀ (t : TableConfig) (f : String), f ∈ t.selected_fields →
      t.add_field f = t) ∧
    (∀ (t : TableConfig) (f : String),
      (t.add_field f).add_field f = t.add_field f) ∧
    (∀ (names : List String) (t : TableConfig), t.selected_fields.Nodup →
      (names.foldl TableConfig.add_field t).selected_fields.Nodup) := by
  have hmem : ∀ (t : TableConfig) (f : String), f ∈ t.selected_fields →
      t.add_field f = t := by
    intro t f h
    simp [TableConfig.add_field, h]
  have hstep : ∀ (t : TableConfig) (f : String), f ∈ (t.add_field f).selected_fields := by
    intro t f
    by_cases h : f ∈ t.selected_fields
    · simp [TableConfig.add_field, h]
    · simp [TableConfig.add_field, h]
  have hnodup : ∀ (t : TableConfig) (f : String), t.selected_fields.Nodup →
      (t.add_field f).selected_fields.Nodup := by
    intro t f h
    by_cases hf : f ∈ t.selected_fields
    · simp [TableConfig.add_field, hf, h]
    · simp [TableConfig.add_field, hf]
      exact List.Nodup.append h (List.nodup_singleton f)
        (by simpa [List.disjoint_singleton] using hf)
  refine ⟨hmem, ?_, ?_⟩
  · intro t f
    exact hmem (t.add_field f) f (hstep t f)
  · intro names
    induction names with
    | nil => intro t h; exact h
    | cons n ns ih =>
      intro t h
      exact ih (t.add_field n) (hnodup t n h)

/-- C10 witness: concrete run of all three conjuncts. -/
theorem add_field_idempotent_nodup_witness :
    ("a" ∈ (TableConfig.mk "t" "t" ["a", "b"]).selected_fields ∧
      (TableConfig.mk "t" "t" ["a", "b"]).add_field "a" =
        TableConfig.mk "t" "t" ["a", "b"]) ∧
    (((TableConfig.mk "t" "t" []).add_field "a").add_field "a" =
      (TableConfig.mk "t" "t" []).add_field "a") ∧
    ((["a", "b", "a", "c"].foldl TableConfig.add_field
        (TableConfig.mk "t" "t" [])).selected_fields.Nodup) :=
  ⟨⟨by decide, add_field_idempotent_nodup.1 (TableConfig.mk "t" "t" ["a", "b"]) "a"
      (by decide)⟩,
   add_field_idempotent_nodup.2.1 (TableConfig.mk "t" "t" []) "a",
   add_field_idempotent_nodup.2.2 ["a", "b", "a", "c"] (TableConfig.mk "t" "t" [])
     (by decide)⟩

/-! ### C5 — end-to-end rendering scenario -/

/-- The end-to-end scenario assembly of §8: products/p with three fields,
LEFT JOIN to categories/c, a single GREATER filter and one DESC sort. -/
def exampleQuery : UniversalQueryBuilder :=
  ((((UniversalQueryBuilder.empty.add_table "products" "p"
      ["product_id", "product_name", "price"]).add_join
      "p" "categories" "c" "category_id" "category_id" "LEFT JOIN"
      ["category_name"]).add_filter "p" "price" .GREATER (.vInt 100)
      "AND").add_order_by "p" "price" "DESC")

set_option maxRecDepth 4096 in
/-- C5: the scenario assembly renders exactly the expected SQL text. -/
theorem end_to_end_scenario :
    UniversalQueryBuilder.to_sql exampleQuery =
      some ("SELECT\n  p.product_id,\n  p.product_name,\n  p.price,\n" ++
        "  c.category_name\nFROM products AS p\n" ++
        "LEFT JOIN categories AS c ON p.category_id = c.category_id\n" ++
        "WHERE\n  p.price > 100\nORDER BY p.price DESC;") := by
  decide

/-! ### C3 — the narrative summarizer -/

/-- A builder whose only state is a GROUP BY specification. -/
def groupByNlState : UniversalQueryBuilder :=
  UniversalQueryBuilder.empty.set_group_by ["p.category"] []

set_option maxRecDepth 4096 in
/-- C3 evaluation: on the empty assembly the summarizer returns the minimal
sentence 查询数据。, but as soon as a GroupBySpec is set it raises
(the comma join is applied to the non-iterable `GroupByConfig` value
itself), contradicting the claimed totality. -/
theorem to_natural_language_eval :
    UniversalQueryBuilder.to_natural_language UniversalQueryBuilder.empty =
        some "查询数据。" ∧
    UniversalQueryBuilder.to_natural_language groupByNlState = none := by
  decide

/-! ### C1 — configuration round-trip -/

/-- A one-table, one-filter assembly: the smallest state the serialized
document fails to carry. -/
def roundtripCex : UniversalQueryBuilder :=
  (UniversalQueryBuilder.empty.add_table "t" "t" ["a"]).add_filter
    "t" "a" .GREATER (.vInt 1) "AND"

set_option maxRecDepth 4096 in
/-- C1 counterexample: `save_query_config` writes only `tables` and
`joins`, so replaying the document drops the filter and the rebuilt
assembly renders different SQL. -/
theorem save_roundtrip_claim_false :
    UniversalQueryBuilder.to_sql roundtripCex =
        some "SELECT\n  t.a\nFROM t AS t\nWHERE\n  t.a > 1;" ∧
    UniversalQueryBuilder.to_sql (rebuild_from_config (save_query_config roundtripCex)) =
        some "SELECT\n  t.a\nFROM t AS t;" ∧
    UniversalQueryBuilder.to_sql (rebuild_from_config (save_query_config roundtripCex)) ≠
      UniversalQueryBuilder.to_sql roundtripCex := by
  refine ⟨by decide, by decide, ?_⟩
  decide

/-- Replaying the serialized table records through `add_table` rebuilds the
table list. -/
lemma rebuild_tables_foldl :
    ∀ (ts : List TableConfig) (b : UniversalQueryBuilder),
      (ts.map (fun t => TableDoc.mk t.table_name t.alias_ t.selected_fields)).foldl
          (fun b t => b.add_table t.name t.alias_ t.fields) b =
        { b with tables := b.tables ++ ts } := by
  intro ts
  induction ts with
  | nil => intro b; cases b; simp
  | cons t ts ih =>
    intro b
    rw [List.map_cons, List.foldl_cons, ih]
    cases b
    simp [UniversalQueryBuilder.add_table]

/-- Replaying the serialized join records through `add_join` rebuilds the
join list and appends each join's right table again, with an empty field
list (the document carries no `right_fields`). -/
lemma rebuild_joins_foldl :
    ∀ (js : List JoinConfig) (b : UniversalQueryBuilder),
      (js.map (fun j => JoinDoc.mk j.left_table_alias j.right_table.table_name
          j.right_table.alias_ j.join_type j.on_left_field j.on_right_field)).foldl
        (fun b j => b.add_join j.left_alias j.right_table j.right_alias
          j.on_left j.on_right j.join_type []) b =
      { b with
        tables := b.tables ++ js.map (fun j =>
          (⟨j.right_table.table_name, j.right_table.alias_, []⟩ : TableConfig)),
        joins := b.joins ++ js.map (fun j =>
          (⟨j.left_table_alias,
            ⟨j.right_table.table_name, j.right_table.alias_, []⟩,
            j.join_type, j.on_left_field, j.on_right_field⟩ : JoinConfig)) } := by
  intro js
  induction js with
  | nil => intro b; cases b; simp
  | cons j js ih =>
    intro b
    rw [List.map_cons, List.foldl_cons, ih]
    cases b
    simp [UniversalQueryBuilder.add_join]

/-- The tables appended by replaying join records have no selected fields,
so they contribute no select items. -/
lemma rebuilt_join_tables_no_fields (js : List JoinConfig) :
    ((js.map (fun j =>
        (⟨j.right_table.table_name, j.right_table.alias_, []⟩ : TableConfig))).map
      TableConfig.get_qualified_fields).flatten = [] := by
  induction js with
  | nil => rfl
  | cons j js ih => simpa [TableConfig.get_qualified_fields] using ih

/-- The joins rebuilt from the document render the same join lines: the
lost field list is not read by `JoinConfig.to_sql`. -/
lemma rebuilt_join_lines (js : List JoinConfig) :
    (js.map (fun j =>
        (⟨j.left_table_alias,
          ⟨j.right_table.table_name, j.right_table.alias_, []⟩,
          j.join_type, j.on_left_field, j.on_right_field⟩ : JoinConfig))).map
      JoinConfig.to_sql = js.map JoinConfig.to_sql := by
  rw [List.map_map]
  rfl

/-- `to_sql` of a tables+joins-only assembly is determined by the flattened
select items, the FROM head and the join lines. -/
lemma to_sql_tables_joins_congr (ts ts₂ : List TableConfig)
    (js js₂ : List JoinConfig)
    (hsel : (ts₂.map TableConfig.get_qualified_fields).flatten =
      (ts.map TableConfig.get_qualified_fields).flatten)
    (hfrom : fromBlock ts₂ = fromBlock ts)
    (hjoin : js₂.map JoinConfig.to_sql = js.map JoinConfig.to_sql) :
    UniversalQueryBuilder.to_sql ⟨ts₂, js₂, [], [], [], none, [], none, none, false⟩ =
      UniversalQueryBuilder.to_sql ⟨ts, js, [], [], [], none, [], none, none, false⟩ := by
  unfold UniversalQueryBuilder.to_sql
  simp only [tryMap, whereBlock, groupBlock, limitBlock]
  rw [hsel, hfrom, hjoin]

/-- C1 amended: the persisted document carries only `tables` and `joins`;
for an assembly whose state beyond those two collections is empty (no
filters, computed columns, window functions, grouping, ordering, limit,
offset or distinct flag) and whose table list is non-empty whenever it has
joins — true of every assembly built through the mutation operations,
since `add_join` inserts the right table — the round trip reproduces the
rendered SQL byte-for-byte: the replayed joins re-append each right table
with an empty field list, which changes no rendered text because the
fields travel under the `tables` key. All other configuration is
dropped. -/
theorem save_roundtrip_amended (b : UniversalQueryBuilder)
    (hf : b.filters = []) (hc : b.case_when = [])
    (hw : b.window_functions = []) (hg : b.group_by = none)
    (ho : b.order_by = []) (hl : b.limit = none) (hoff : b.offset = none)
    (hd : b.distinct = false) (ht : b.tables = [] → b.joins = []) :
    UniversalQueryBuilder.to_sql (rebuild_from_config (save_query_config b)) =
      UniversalQueryBuilder.to_sql b := by
  obtain ⟨ts, js, fs, cs, ws, g, os, l, o, d⟩ := b
  simp only at hf hc hw hg ho hl hoff hd ht
  subst hf hc hw hg ho hl hoff hd
  have hreb : rebuild_from_config (save_query_config
      ⟨ts, js, [], [], [], none, [], none, none, false⟩) =
      ⟨ts ++ js.map (fun j =>
          (⟨j.right_table.table_name, j.right_table.alias_, []⟩ : TableConfig)),
       js.map (fun j =>
          (⟨j.left_table_alias,
            ⟨j.right_table.table_name, j.right_table.alias_, []⟩,
            j.join_type, j.on_left_field, j.on_right_field⟩ : JoinConfig)),
       [], [], [], none, [], none, none, false⟩ := by
    unfold rebuild_from_config save_query_config
    simp only
    rw [rebuild_tables_foldl, rebuild_joins_foldl]
    simp [UniversalQueryBuilder.empty]
  rw [hreb]
  by_cases hts : ts = []
  · have hjs := ht hts
    subst hts
    subst hjs
    rfl
  · obtain ⟨t0, ts', rfl⟩ := List.exists_cons_of_ne_nil hts
    refine to_sql_tables_joins_congr (t0 :: ts') _ js _ ?_ rfl
      (rebuilt_join_lines js)
    rw [List.map_append, List.flatten_append, rebuilt_join_tables_no_fields,
      List.append_nil]

/-- A one-table, one-join assembly for the C1 amended witness: the round
trip also preserves join-bearing states. -/
def joinedRoundtripB : UniversalQueryBuilder :=
  (UniversalQueryBuilder.empty.add_table "products" "p" ["a"]).add_join
    "p" "categories" "c" "cid" "cid" "LEFT JOIN" ["cname"]

/-- C1 amended witness: round trip of an assembly with a join. -/
theorem save_roundtrip_amended_witness :
    joinedRoundtripB.joins ≠ [] ∧
    UniversalQueryBuilder.to_sql joinedRoundtripB =
      some ("SELECT\n  p.a,\n  c.cname\nFROM products AS p\n" ++
        "LEFT JOIN categories AS c ON p.cid = c.cid;") ∧
    UniversalQueryBuilder.to_sql (rebuild_from_config
        (save_query_config joinedRoundtripB)) =
      UniversalQueryBuilder.to_sql joinedRoundtripB :=
  ⟨by decide, by decide,
   save_roundtrip_amended joinedRoundtripB rfl rfl rfl rfl rfl rfl rfl rfl
     (fun h => absurd h (by decide))⟩

/-! ### C2 — rendering totality -/

/-- A value the BETWEEN branch can subscript at 0 and 1 without raising. -/
def betweenSafe (v : Value) : Bool :=
  (pySubscript v 0).isSome && (pySubscript v 1).isSome

/-- Every FilterCondition whose predicate `to_sql` renders: the WHERE
filters, the case-when branch conditions, and the having conditions. -/
def UniversalQueryBuilder.allConditions (b : UniversalQueryBuilder) :
    List FilterCondition :=
  b.filters ++ (b.case_when.map (fun c => c.conditions.map Prod.fst)).flatten ++
    (match b.group_by with
     | none => []
     | some g => g.having_conditions)

/-- A predicate renders whenever a BETWEEN operator comes with a
subscriptable value. -/
lemma to_sql_isSome_of_betweenSafe (f : FilterCondition)
    (h : f.operator = .BETWEEN → betweenSafe f.value = true) :
    (FilterCondition.to_sql f).isSome = true := by
  unfold FilterCondition.to_sql
  by_cases h1 : f.operator = .IS_NULL ∨ f.operator = .IS_NOT_NULL
  · simp [h1]
  · by_cases h2 : f.operator = .IN ∨ f.operator = .NOT_IN
    · simp [h1, h2]
    · by_cases h3 : f.operator = .BETWEEN
      · have hb := h h3
        unfold betweenSafe at hb
        obtain ⟨hb0, hb1⟩ := Bool.and_eq_true_iff.1 hb
        obtain ⟨v0, hv0⟩ := Option.isSome_iff_exists.1 hb0
        obtain ⟨v1, hv1⟩ := Option.isSome_iff_exists.1 hb1
        simp [h1, h2, h3, hv0, hv1]
      · by_cases h4 : f.operator = .REGEXP
        · simp [h1, h2, h3, h4]
        · simp [h1, h2, h3, h4]

/-- The WHERE block renders when every filter's predicate renders. -/
lemma whereBlock_isSome (fs : List FilterCondition)
    (h : ∀ f ∈ fs, (FilterCondition.to_sql f).isSome = true) :
    (whereBlock fs).isSome = true := by
  cases fs with
  | nil => rfl
  | cons f rest =>
    obtain ⟨s0, hs0⟩ := Option.isSome_iff_exists.1 (h f (by simp))
    have hrest : (tryMap (fun g => (FilterCondition.to_sql g).map
        (fun s => "  " ++ g.logic_operator ++ " " ++ s)) rest).isSome = true := by
      apply tryMap_isSome
      intro g hg
      obtain ⟨s, hs⟩ := Option.isSome_iff_exists.1 (h g (by simp [hg]))
      simp [hs]
    obtain ⟨L, hL⟩ := Option.isSome_iff_exists.1 hrest
    simp [whereBlock, hs0, hL]

/-- A CASE WHEN block renders when every branch condition renders. -/
lemma caseWhen_to_sql_isSome (c : CaseWhenConfig)
    (h : ∀ p ∈ c.conditions, (FilterCondition.to_sql p.1).isSome = true) :
    (CaseWhenConfig.to_sql c 2).isSome = true := by
  unfold CaseWhenConfig.to_sql
  simp only [Option.isSome_map']
  apply tryMap_isSome
  intro p hp
  simp only [Option.isSome_map']
  exact h p hp

/-- The GROUP BY block renders when every having condition renders. -/
lemma groupBlock_isSome (go : Option GroupByConfig)
    (h : ∀ g, go = some g → ∀ f ∈ g.having_conditions,
      (FilterCondition.to_sql f).isSome = true) :
    (groupBlock go).isSome = true := by
  cases go with
  | none => rfl
  | some g =>
    unfold groupBlock
    by_cases he : g.having_conditions.isEmpty
    · simp [he]
    · have := tryMap_isSome FilterCondition.to_sql g.having_conditions (h g rfl)
      obtain ⟨hs, hhs⟩ := Option.isSome_iff_exists.1 this
      simp [he, hhs]

/-- A reachable state with a BETWEEN filter whose value has fewer than two
elements. -/
def betweenCex : UniversalQueryBuilder :=
  (UniversalQueryBuilder.empty.add_table "t" "t" ["a"]).add_filter
    "t" "a" .BETWEEN (.vList []) "AND"

/-- C2 counterexample: rendering is not total — a BETWEEN filter whose
value holds fewer than two elements makes `to_sql` raise (IndexError on
`self.value[0]`), modelled by `none`. -/
theorem to_sql_total_claim_false :
    UniversalQueryBuilder.to_sql betweenCex = none := by decide

/-- C2 amended: `to_sql` raises no error provided every BETWEEN condition
(among filters, having conditions and case-when branch conditions) carries
a value subscriptable at 0 and 1; in particular a `None`-valued filter
under any other operator, or an IN filter with a non-sequence value, still
renders, and missing data (e.g. no tables, hence no FROM clause) only
degrades the output text. -/
theorem to_sql_never_raises_amended (b : UniversalQueryBuilder)
    (h : ∀ f ∈ b.allConditions, f.operator = .BETWEEN →
      betweenSafe f.value = true) :
    (UniversalQueryBuilder.to_sql b).isSome = true := by
  have hf : ∀ f ∈ b.filters, (FilterCondition.to_sql f).isSome = true := by
    intro f hfm
    refine to_sql_isSome_of_betweenSafe f (h f ?_)
    simp [UniversalQueryBuilder.allConditions, hfm]
  have hcw : ∀ c ∈ b.case_when, ∀ p ∈ c.conditions,
      (FilterCondition.to_sql p.1).isSome = true := by
    intro c hc p hp
    refine to_sql_isSome_of_betweenSafe p.1 (h p.1 ?_)
    simp only [UniversalQueryBuilder.allConditions, List.append_assoc,
      List.mem_append]
    right; left
    simp only [List.mem_flatten, List.mem_map]
    exact ⟨c.conditions.map Prod.fst, ⟨c, hc, rfl⟩, List.mem_map.2 ⟨p, hp, rfl⟩⟩
  have hhav : ∀ g, b.group_by = some g → ∀ f ∈ g.having_conditions,
      (FilterCondition.to_sql f).isSome = true := by
    intro g hg f hfm
    refine to_sql_isSome_of_betweenSafe f (h f ?_)
    simp only [UniversalQueryBuilder.allConditions, List.append_assoc,
      List.mem_append]
    right; right
    rw [hg]
    exact hfm
  have h1 : (tryMap (fun c => CaseWhenConfig.to_sql c 2) b.case_when).isSome = true :=
    tryMap_isSome _ _ (fun c hc => caseWhen_to_sql_isSome c (hcw c hc))
  have h2 : (whereBlock b.filters).isSome = true := whereBlock_isSome _ hf
  have h3 : (groupBlock b.group_by).isSome = true := groupBlock_isSome _ hhav
  obtain ⟨x1, e1⟩ := Option.isSome_iff_exists.1 h1
  obtain ⟨x2, e2⟩ := Option.isSome_iff_exists.1 h2
  obtain ⟨x3, e3⟩ := Option.isSome_iff_exists.1 h3
  unfold UniversalQueryBuilder.to_sql
  rw [e1, e2, e3]
  rfl

/-- A state exercising the claim's listed inputs that do render: a BETWEEN
filter with a two-element value, a None-valued EQUALS filter, and an IN
filter whose value is not a sequence. -/
def renderSafeExample : UniversalQueryBuilder :=
  (((UniversalQueryBuilder.empty.add_table "t" "t" ["a"]).add_filter
      "t" "a" .BETWEEN (.vList [.vInt 1, .vInt 2]) "AND").add_filter
      "t" "b" .EQUALS .vNone "AND").add_filter "t" "c" .IN (.vStr "x") "OR"

/-- C2 amended witness. -/
theorem to_sql_never_raises_amended_witness :
    (∀ f ∈ renderSafeExample.allConditions, f.operator = .BETWEEN →
        betweenSafe f.value = true) ∧
    (UniversalQueryBuilder.to_sql renderSafeExample).isSome = true :=
  ⟨by decide, to_sql_never_raises_amended renderSafeExample (by decide)⟩

/-! ### C4 — the validation verdict -/

/-- When the scan finishes without a negative excursion, its final count is
the start count plus the surplus of `(` tokens over `)` tokens. -/
lemma parenScan_final :
    ∀ (ts : List SqlToken) (c : Int), (parenScan ts c).2 = false →
      (parenScan ts c).1 =
        c + (ts.count (SqlToken.punct "(") : Int) -
          (ts.count (SqlToken.punct ")") : Int) := by
  intro ts
  induction ts with
  | nil =>
    intro c _
    simp [parenScan]
  | cons t ts ih =>
    intro c h
    unfold parenScan at h ⊢
    by_cases hneg : c + parenDelta t < 0
    · rw [if_pos hneg] at h
      simp at h
    · rw [if_neg hneg] at h ⊢
      rw [ih _ h]
      by_cases h1 : t = SqlToken.punct "("
      · subst h1
        rw [List.count_cons_self, List.count_cons_of_ne (by decide)]
        simp [parenDelta]
        omega
      · by_cases h2 : t = SqlToken.punct ")"
        · subst h2
          rw [List.count_cons_self, List.count_cons_of_ne (by decide)]
          simp [parenDelta]
          omega
        · rw [List.count_cons_of_ne (fun he => h1 he.symm),
            List.count_cons_of_ne (fun he => h2 he.symm)]
          simp [parenDelta, h1, h2]

/-- C4: the verdict of `validate_sql` is exactly "the tokenizer produced a
statement AND the parenthesis scan settled at zero" — on an empty parse it
is false, on a parsed statement it is true iff the scan of its flattened
tokens ends at count 0 without a negative excursion (so none of the
warnings — statement kind, odd quote count, SELECT * — can flip it); and a
token stream with one unmatched `(` always yields `valid = false` together
with the unbalanced-parentheses error 括号不匹配. -/
theorem validate_valid_characterization :
    (∀ (text : String) (fmt : String → String),
      (validate_sql text [] fmt).valid = false) ∧
    (∀ (text : String) (st : SqlStatement) (rest : List SqlStatement)
        (fmt : String → String),
      ((validate_sql text (st :: rest) fmt).valid = true ↔
        parenScan st.tokens 0 = (0, false))) ∧
    (∀ (text : String) (st : SqlStatement) (rest : List SqlStatement)
        (fmt : String → String),
      st.tokens.count (SqlToken.punct "(") =
          st.tokens.count (SqlToken.punct ")") + 1 →
      (validate_sql text (st :: rest) fmt).valid = false ∧
      "括号不匹配" ∈ (validate_sql text (st :: rest) fmt).errors) := by
  refine ⟨fun text fmt => rfl, ?_, ?_⟩
  · intro text st rest fmt
    show (!((parenScan st.tokens 0).2 || (parenScan st.tokens 0).1 ≠ 0)) = true ↔ _
    rcases hscan : parenScan st.tokens 0 with ⟨c, brk⟩
    constructor
    · intro hv
      simp at hv
      obtain ⟨hb, hc⟩ := hv
      rw [hb, hc]
    · intro hv
      rw [hv]
      simp
  · intro text st rest fmt hcount
    rcases hscan : parenScan st.tokens 0 with ⟨c, brk⟩
    have hvalid : (validate_sql text (st :: rest) fmt).valid =
        (!(brk || c ≠ 0)) := by
      show (!((parenScan st.tokens 0).2 || (parenScan st.tokens 0).1 ≠ 0)) = _
      rw [hscan]
    have herr : (validate_sql text (st :: rest) fmt).errors =
        (if c ≠ 0 then (if brk then ["括号不匹配"] else []) ++ ["括号不匹配"]
         else (if brk then ["括号不匹配"] else [])) := by
      show (if ((parenScan st.tokens 0).1 ≠ 0) then
          (if (parenScan st.tokens 0).2 then ["括号不匹配"] else []) ++ ["括号不匹配"]
        else (if (parenScan st.tokens 0).2 then ["括号不匹配"] else [])) = _
      rw [hscan]
    cases brk with
    | true =>
      refine ⟨by rw [hvalid]; rfl, ?_⟩
      rw [herr]
      by_cases hc : c ≠ 0 <;> simp [hc]
    | false =>
      have hc : c = 1 := by
        have := parenScan_final st.tokens 0 (by rw [hscan])
        rw [hscan] at this
        simp at this
        rw [this, hcount]
        push_cast
        omega
      subst hc
      refine ⟨by rw [hvalid]; rfl, ?_⟩
      rw [herr]
      simp

/-- C4 witness: a parsed statement with one unmatched `(`. -/
theorem validate_valid_characterization_witness :
    ((validate_sql "SELECT (a" [⟨"SELECT", [.other, .punct "("]⟩] id).valid = true ↔
      parenScan [SqlToken.other, .punct "("] 0 = (0, false)) ∧
    ([SqlToken.other, .punct "("].count (SqlToken.punct "(") =
      [SqlToken.other, .punct "("].count (SqlToken.punct ")") + 1) ∧
    (validate_sql "SELECT (a" [⟨"SELECT", [.other, .punct "("]⟩] id).valid = false ∧
    "括号不匹配" ∈ (validate_sql "SELECT (a" [⟨"SELECT", [.other, .punct "("]⟩] id).errors :=
  ⟨validate_valid_characterization.2.1 "SELECT (a" ⟨"SELECT", [.other, .punct "("]⟩ [] id,
   by decide,
   (validate_valid_characterization.2.2 "SELECT (a" ⟨"SELECT", [.other, .punct "("]⟩
     [] id (by decide)).1,
   (validate_valid_characterization.2.2 "SELECT (a" ⟨"SELECT", [.other, .punct "("]⟩
     [] id (by decide)).2⟩

/-! ### C6 — best-effort formatting -/

/-- C6 counterexample: on text the tokenizer cannot parse, `validate_sql`
returns early with `formatted` still the empty string, not a reformatted
version of the input. -/
theorem validate_formatted_claim_false :
    ¬ (∀ (text : String) (parsed : List SqlStatement) (fmt : String → String),
        (validate_sql text parsed fmt).formatted = fmt text) := by
  intro h
  have h1 := h "???" [] id
  have h2 : (validate_sql "???" [] id).formatted = "" := rfl
  rw [h2] at h1
  exact (by decide : ("" : String) ≠ "???") h1

/-- C6 amended: `formatted` is the external formatter's output on the input
whenever the tokenizer parses it — even when `valid` is false (unbalanced
parentheses included) — but when the tokenizer yields no statements,
`validate_sql` returns early and `formatted` is the empty string. -/
theorem validate_formatted_best_effort :
    (∀ (text : String) (st : SqlStatement) (rest : List SqlStatement)
        (fmt : String → String),
      (validate_sql text (st :: rest) fmt).formatted = fmt text) ∧
    (∀ (text : String) (fmt : String → String),
      (validate_sql text [] fmt).formatted = "") :=
  ⟨fun text st rest fmt => rfl, fun text fmt => rfl⟩

/-! ### C7 — logic operators in the WHERE clause -/

/-- Unfolding equation of `whereBlock` on a non-empty filter list. -/
lemma whereBlock_cons (f : FilterCondition) (rest : List FilterCondition) :
    whereBlock (f :: rest) =
      match FilterCondition.to_sql f,
          tryMap (fun g => (FilterCondition.to_sql g).map
            (fun s => "  " ++ g.logic_operator ++ " " ++ s)) rest with
      | some s0, some restLines =>
          some ["WHERE", "\n".intercalate (("  " ++ s0) :: restLines)]
      | _, _ => none := rfl

/-- C7: a query with zero filters contributes no WHERE lines; the first
filter's `logic_operator` never reaches the rendered text (replacing it by
any string leaves `to_sql` unchanged); and every subsequent filter's line
is its own predicate prefixed by that filter's own `logic_operator`. -/
theorem where_clause_logic (f : FilterCondition) (rest : List FilterCondition) :
    whereBlock [] = some [] ∧
    (∀ b : UniversalQueryBuilder, b.filters = f :: rest → ∀ op : String,
      UniversalQueryBuilder.to_sql { b with filters :=
          { f with logic_operator := op } :: rest } =
        UniversalQueryBuilder.to_sql b) ∧
    (∀ lines, whereBlock (f :: rest) = some lines →
      ∃ s0 ss, FilterCondition.to_sql f = some s0 ∧
        tryMap FilterCondition.to_sql rest = some ss ∧
        lines = ["WHERE", "\n".intercalate (("  " ++ s0) ::
          List.zipWith (fun g s => "  " ++ g.logic_operator ++ " " ++ s) rest ss)]) := by
  refine ⟨rfl, ?_, ?_⟩
  · intro b hb op
    obtain ⟨ts, js, fs, cs, ws, g, os, l, o, d⟩ := b
    simp only at hb
    subst hb
    have hwb : whereBlock ({ f with logic_operator := op } :: rest) =
        whereBlock (f :: rest) := by
      rw [whereBlock_cons, whereBlock_cons, to_sql_logic_irrel]
    simp only [UniversalQueryBuilder.to_sql, hwb]
  · intro lines hl
    rw [whereBlock_cons] at hl
    cases h0 : FilterCondition.to_sql f with
    | none => rw [h0] at hl; simp at hl
    | some s0 =>
      rw [h0] at hl
      cases h1 : tryMap (fun g => (FilterCondition.to_sql g).map
          (fun s => "  " ++ g.logic_operator ++ " " ++ s)) rest with
      | none => rw [h1] at hl; simp at hl
      | some restLines =>
        rw [h1] at hl
        simp only [Option.some_inj] at hl
        obtain ⟨ss, hss, hz⟩ := tryMap_map_split FilterCondition.to_sql
          (fun g s => "  " ++ g.logic_operator ++ " " ++ s) rest restLines h1
        exact ⟨s0, ss, rfl, hss, by rw [← hl, hz]⟩

/-- A two-filter assembly (AND then OR) for the C7 witness. -/
def whereExampleB : UniversalQueryBuilder :=
  ((UniversalQueryBuilder.empty.add_table "t" "t" ["a"]).add_filter
      "t" "a" .GREATER (.vInt 1) "AND").add_filter "t" "b" .LESS (.vInt 5) "OR"

/-- First filter of `whereExampleB`. -/
def wfFirst : FilterCondition := ⟨"t", "a", .GREATER, .vInt 1, "AND"⟩

/-- Second filter of `whereExampleB`. -/
def wfSecond : FilterCondition := ⟨"t", "b", .LESS, .vInt 5, "OR"⟩

/-- C7 witness: on the concrete two-filter assembly, rewriting the first
filter's logic operator to `OR` leaves the rendered SQL unchanged, and the
WHERE block is the first predicate bare followed by the second prefixed by
its own `OR`. -/
theorem where_clause_logic_witness :
    whereExampleB.filters = wfFirst :: [wfSecond] ∧
    (UniversalQueryBuilder.to_sql { whereExampleB with filters :=
        { wfFirst with logic_operator := "OR" } :: [wfSecond] } =
      UniversalQueryBuilder.to_sql whereExampleB) ∧
    whereBlock (wfFirst :: [wfSecond]) =
      some ["WHERE", "  t.a > 1\n  OR t.b < 5"] ∧
    (∃ s0 ss, FilterCondition.to_sql wfFirst = some s0 ∧
      tryMap FilterCondition.to_sql [wfSecond] = some ss ∧
      ["WHERE", "  t.a > 1\n  OR t.b < 5"] = ["WHERE",
        "\n".intercalate (("  " ++ s0) ::
          List.zipWith (fun g s => "  " ++ g.logic_operator ++ " " ++ s)
            [wfSecond] ss)]) :=
  ⟨rfl,
   (where_clause_logic wfFirst [wfSecond]).2.1 whereExampleB rfl "OR",
   by decide,
   (where_clause_logic wfFirst [wfSecond]).2.2
     ["WHERE", "  t.a > 1\n  OR t.b < 5"] (by decide)⟩

/-! ### C8 — HAVING conditions are always AND-combined -/

/-- Unfolding equation of `groupBlock` on a set GroupByConfig. -/
lemma groupBlock_some (g : GroupByConfig) :
    groupBlock (some g) =
      (if g.having_conditions.isEmpty then
        some ["GROUP BY " ++ ", ".intercalate g.fields]
      else
        match tryMap FilterCondition.to_sql g.having_conditions with
        | none => none
        | some hs =>
            some ["GROUP BY " ++ ", ".intercalate g.fields,
              "HAVING " ++ " AND ".intercalate hs]) := rfl

/-- C8: with a set GroupBySpec and non-empty having conditions, the
rendered HAVING clause joins the condition predicates with the literal
`" AND "`, and rewriting every having condition's `logic_operator` (e.g.
to `OR`) leaves the rendered SQL unchanged. -/
theorem having_and_combined (g : GroupByConfig)
    (hne : g.having_conditions ≠ []) :
    (∀ (b : UniversalQueryBuilder) (σ : FilterCondition → String),
      b.group_by = some g →
      UniversalQueryBuilder.to_sql { b with group_by := some ⟨g.fields,
          g.having_conditions.map (fun c => { c with logic_operator := σ c })⟩ } =
        UniversalQueryBuilder.to_sql b) ∧
    (∀ hs, tryMap FilterCondition.to_sql g.having_conditions = some hs →
      groupBlock (some g) = some ["GROUP BY " ++ ", ".intercalate g.fields,
        "HAVING " ++ " AND ".intercalate hs]) := by
  have hie : g.having_conditions.isEmpty = false := by
    cases hcs : g.having_conditions with
    | nil => exact absurd hcs hne
    | cons c cs => rfl
  constructor
  · intro b σ hg
    have hgb : groupBlock (some ⟨g.fields,
        g.having_conditions.map (fun c => { c with logic_operator := σ c })⟩) =
        groupBlock (some g) := by
      have hfun : (fun c => FilterCondition.to_sql
          { c with logic_operator := σ c }) = FilterCondition.to_sql :=
        funext (fun c => to_sql_logic_irrel c (σ c))
      obtain ⟨gf, gh⟩ := g
      have hie3 : (gh.map (fun c => { c with logic_operator := σ c })).isEmpty
          = gh.isEmpty := by cases gh <;> rfl
      rw [groupBlock_some, groupBlock_some]
      simp only [hie3, tryMap_map_comp, hfun]
    obtain ⟨ts, js, fs, cs, ws, go, os, l, o, d⟩ := b
    simp only at hg
    subst hg
    simp only [UniversalQueryBuilder.to_sql, hgb]
  · intro hs htm
    rw [groupBlock_some, hie]
    simp [htm]

/-- The having configuration of the C8 witness. -/
def havingG : GroupByConfig :=
  ⟨["t.a"], [⟨"t", "cnt", .GREATER, .vInt 1, "AND"⟩]⟩

/-- An assembly with one table and the `havingG` GROUP BY. -/
def havingB : UniversalQueryBuilder :=
  (UniversalQueryBuilder.empty.add_table "t" "t" ["a"]).set_group_by ["t.a"]
    [⟨"t", "cnt", .GREATER, .vInt 1, "AND"⟩]

/-- C8 witness: flipping the having condition's logic operator to `OR`
leaves the rendered SQL unchanged, and the HAVING clause is AND-joined. -/
theorem having_and_combined_witness :
    havingB.group_by = some havingG ∧
    (UniversalQueryBuilder.to_sql { havingB with group_by := some ⟨havingG.fields,
        havingG.having_conditions.map (fun c =>
          { c with logic_operator := "OR" })⟩ } =
      UniversalQueryBuilder.to_sql havingB) ∧
    groupBlock (some havingG) = some ["GROUP BY t.a", "HAVING t.cnt > 1"] :=
  ⟨rfl,
   (having_and_combined havingG (List.cons_ne_nil _ _)).1 havingB (fun _ => "OR") rfl,
   (having_and_combined havingG (List.cons_ne_nil _ _)).2 ["t.cnt > 1"] (by decide)⟩

/-! ### C9 — OFFSET emission -/

/-- A state with a set limit and a negative offset. -/
def offsetNegState : UniversalQueryBuilder :=
  UniversalQueryBuilder.empty.set_limit 10 (some (-1))

/-- C9 counterexample: `if self.offset:` is Python truthiness, so any
nonzero offset is emitted — a negative (hence non-positive) offset appears
in the rendered text, refuting "only when offset is a positive integer". -/
theorem offset_positive_claim_false :
    ¬ (∀ (b : UniversalQueryBuilder) (s : String),
        UniversalQueryBuilder.to_sql b = some s →
        containsSub s " OFFSET " = true →
        ∃ m, b.offset = some m ∧ 0 < m) := by
  intro h
  obtain ⟨m, hm, hpos⟩ := h offsetNegState "SELECT\n  \nLIMIT 10 OFFSET -1;"
    (by decide) (by decide)
  have hm' : (some (-1) : Option Int) = some m := hm
  rw [Option.some_inj] at hm'
  omega

/-- Unfolding equation of `limitBlock` on a set limit. -/
lemma limitBlock_some (n : Int) (off : Option Int) :
    limitBlock (some n) off =
      (if n = 0 then []
       else ["LIMIT " ++ toString n ++
         (match off with
          | none => ""
          | some m => if m = 0 then "" else " OFFSET " ++ toString m)]) := rfl

/-- The zero-offset clause shape of `limitBlock` is the no-offset shape. -/
lemma limitBlock_offset_zero (l : Option Int) :
    limitBlock l (some 0) = limitBlock l none := by
  cases l with
  | none => rfl
  | some n =>
    rw [limitBlock_some, limitBlock_some]
    by_cases hn : n = 0
    · rw [if_pos hn, if_pos hn]
    · rw [if_neg hn, if_neg hn]
      rfl

/-- C9 amended: an OFFSET is emitted exactly when the limit is set and
nonzero and the offset is set and nonzero (any nonzero integer, negative
included — "positive" in the claim must weaken to "nonzero"); an offset of
0 renders byte-identically to an absent offset, and an unset or zero limit
suppresses the whole LIMIT/OFFSET clause. -/
theorem offset_rendering_amended (b : UniversalQueryBuilder) :
    (UniversalQueryBuilder.to_sql { b with offset := some 0 } =
      UniversalQueryBuilder.to_sql { b with offset := none }) ∧
    ((b.limit = none ∨ b.limit = some 0) → limitBlock b.limit b.offset = []) ∧
    (∀ n : Int, b.limit = some n → n ≠ 0 →
      ((b.offset = none ∨ b.offset = some 0) →
        limitBlock b.limit b.offset = ["LIMIT " ++ toString n]) ∧
      (∀ m : Int, b.offset = some m → m ≠ 0 →
        limitBlock b.limit b.offset =
          ["LIMIT " ++ toString n ++ " OFFSET " ++ toString m])) := by
  refine ⟨?_, ?_, ?_⟩
  · obtain ⟨ts, js, fs, cs, ws, g, os, l, o, d⟩ := b
    simp only [UniversalQueryBuilder.to_sql, limitBlock_offset_zero]
  · intro hl
    rcases hl with hl | hl <;> rw [hl]
    · rfl
    · rw [limitBlock_some, if_pos rfl]
  · intro n hn hnz
    rw [hn]
    constructor
    · intro ho
      rcases ho with ho | ho <;> rw [ho, limitBlock_some, if_neg hnz] <;> simp
    · intro m hm hmz
      rw [hm, limitBlock_some, if_neg hnz]
      simp [hmz, String.append_assoc]

/-- A state with both limit and offset set and nonzero. -/
def limitExampleB : UniversalQueryBuilder :=
  UniversalQueryBuilder.empty.set_limit 5 (some 3)

/-- C9 amended witness. -/
theorem offset_rendering_amended_witness :
    (UniversalQueryBuilder.to_sql { limitExampleB with offset := some 0 } =
      UniversalQueryBuilder.to_sql { limitExampleB with offset := none }) ∧
    limitExampleB.limit = some 5 ∧ limitExampleB.offset = some 3 ∧
    limitBlock limitExampleB.limit limitExampleB.offset = ["LIMIT 5 OFFSET 3"] :=
  ⟨(offset_rendering_amended limitExampleB).1, rfl, rfl,
   ((offset_rendering_amended limitExampleB).2.2 5 rfl (by decide)).2 3 rfl (by decide)⟩

end SqlGen
